import Mathlib

/-!
Verification of the Prepsales notification service
(`src/notification_service.py`) against its natural-language specification.

The Python module is shallowly embedded: the `Notification` model, its
dict (de)serialization, the contact validators, the exponential-backoff
computation, the worker's delivery path (`send_notification`,
`process_notification`, the consumer callback's ack/nack decision), the
scheduler's reconciliation pass (`process_scheduled_retries`) and the
manual-retry endpoint (`retry_notification`) become pure Lean functions.
External effects are made explicit: the MongoDB collection is a list of
records keyed by `id`, the work queue and the dead-letter queue are lists
of published snapshots, timestamps are natural numbers, and the outcome
of a provider call (Flask-Mail / Twilio) is an oracle in an environment
record.  A queue message whose payload cannot be deserialized is
modelled as `none`.
-/

namespace NotificationService

/-- Module constant `MAX_RETRIES = 5`. -/
def MAX_RETRIES : Nat := 5

/-- The `Notification` model: one field per attribute set in `__init__`.
Timestamps are `Nat`; `last_error` and `next_retry_time` start as `None`,
hence `Option`. The `notification_type` and `status` attributes hold the
same plain strings the Python code stores. -/
structure Notification where
  id : String
  user_id : String
  notification_type : String
  message : String
  email : String
  phone : String
  created_at : Nat
  status : String
  last_error : Option String
  retry_count : Nat
  max_retries : Nat
  next_retry_time : Option Nat
deriving Repr, DecidableEq

/-- The dictionary shape produced by `to_dict` and consumed by
`from_dict`.  Keys that `from_dict` reads with `data.get(...)` (and that
a hand-built dict may therefore omit) are `Option`-valued; for
`last_error` and `next_retry_time` a missing key and a stored `None` are
indistinguishable through `data.get`, so the attribute's own `Option`
already covers both. -/
structure NotifDict where
  id : String
  user_id : String
  notification_type : String
  message : String
  email : Option String
  phone : Option String
  created_at : Nat
  status : String
  last_error : Option String
  retry_count : Option Nat
  max_retries : Option Nat
  next_retry_time : Option Nat
deriving Repr, DecidableEq

/-- Method `Notification.to_dict`: returns `self.__dict__`, i.e. every
attribute under its own key. -/
def Notification.to_dict (n : Notification) : NotifDict :=
  { id := n.id
    user_id := n.user_id
    notification_type := n.notification_type
    message := n.message
    email := some n.email
    phone := some n.phone
    created_at := n.created_at
    status := n.status
    last_error := n.last_error
    retry_count := some n.retry_count
    max_retries := some n.max_retries
    next_retry_time := n.next_retry_time }

/-- Method `Notification.from_dict`: builds a fresh record via the constructor
(the freshly generated `id`/`created_at` are immediately overwritten from
the dict), then copies each stored field, with `data.get` defaults
`''` for `email`/`phone`, `0` for `retry_count`, `MAX_RETRIES` for
`max_retries`, `None` for `last_error`/`next_retry_time`. -/
def Notification.from_dict (d : NotifDict) : Notification :=
  { id := d.id
    user_id := d.user_id
    notification_type := d.notification_type
    message := d.message
    email := d.email.getD ""
    phone := d.phone.getD ""
    created_at := d.created_at
    status := d.status
    last_error := d.last_error
    retry_count := d.retry_count.getD 0
    max_retries := d.max_retries.getD MAX_RETRIES
    next_retry_time := d.next_retry_time }

/-- A character matched by the regex class `\w` (ASCII model). -/
def isWordChar (c : Char) : Bool := c.isAlphanum || c == '_'

/-- A character matched by the regex class `[\w\.-]`. -/
def isLocalChar (c : Char) : Bool := isWordChar c || c == '.' || c == '-'

/-- The anchored regex `[\w\.-]+\.\w+` on the part after `@`.  Since
`\w` excludes `.`, the final `\w+` group can only start after the last
dot, so the pattern matches iff the text splits at its last dot into a
nonempty `[\w\.-]+` prefix and a nonempty `\w+` suffix. -/
def domainOk (s : List Char) : Bool :=
  let r := s.reverse
  let tldRev := r.takeWhile (fun c => c ≠ '.')
  match r.dropWhile (fun c => c ≠ '.') with
  | '.' :: midRev =>
      !tldRev.isEmpty && tldRev.all isWordChar &&
      !midRev.isEmpty && midRev.all isLocalChar
  | _ => false

/-- Validator `validate_email`: `re.match(r'^[\w\.-]+@[\w\.-]+\.\w+$', email) if
email else False`.  `@` is outside `[\w\.-]`, so a match forces exactly
one `@`, with a nonempty `[\w\.-]+` local part before it. -/
def validate_email (email : String) : Bool :=
  match email.data.splitOn '@' with
  | [l, d] => !l.isEmpty && l.all isLocalChar && domainOk d
  | _ => false

/-- Validator `validate_phone`: `re.match(r'^\+\d{10,15}$', phone) if phone else
False` — a `+` followed by 10 to 15 digits. -/
def validate_phone (phone : String) : Bool :=
  match phone.data with
  | '+' :: rest =>
      decide (10 ≤ rest.length) && decide (rest.length ≤ 15) &&
      rest.all Char.isDigit
  | _ => false

/-- Function `calculate_next_retry_time`: `utcnow() + timedelta(seconds=
min(30 * (2 ** retry_count), 3600))`, with the current time passed
explicitly. -/
def calculate_next_retry_time (now : Nat) (retry_count : Nat) : Nat :=
  now + min (30 * 2 ^ retry_count) 3600

/-- Outcome of a call to an external delivery provider (Flask-Mail or
Twilio): either it returns, or it raises an exception with a message. -/
inductive DeliveryResult where
  | ok : DeliveryResult
  | raises (msg : String) : DeliveryResult
deriving Repr, DecidableEq

/-- The ambient world for one processing step: the current UTC clock and
what each provider call would do if reached. -/
structure Env where
  now : Nat
  emailDelivery : DeliveryResult
  smsDelivery : DeliveryResult
deriving Repr, DecidableEq

/-- Function `send_notification`: dispatch on `notification_type`.  The email and
sms branches first validate the contact, raising `ValueError` on
failure, then call the provider (which may itself raise); any other type
(in particular `in_app`) runs no branch.  Reaching the end of the `try`
sets `status = "sent"` and returns `True`; any exception is caught, sets
`status = "failed"` and `last_error = str(e)`, and returns `False`. -/
def send_notification (env : Env) (n : Notification) : Notification × Bool :=
  let exc : Option String :=
    if n.notification_type == "email" then
      if !validate_email n.email then some "Invalid email"
      else match env.emailDelivery with
        | .ok => none
        | .raises m => some m
    else if n.notification_type == "sms" then
      if !validate_phone n.phone then some "Invalid phone"
      else match env.smsDelivery with
        | .ok => none
        | .raises m => some m
    else none
  match exc with
  | none => ({ n with status := "sent" }, true)
  | some e => ({ n with status := "failed", last_error := some e }, false)

/-- The shared mutable world: the MongoDB `notifications` collection and
the two RabbitMQ queues, each queue holding the serialized snapshots
published to it, in order. -/
structure SysState where
  store : List Notification
  workQueue : List NotifDict
  dlq : List NotifDict
deriving Repr, DecidableEq

/-- Mongo `update_one({"id": id}, {"$set": ...})`: rewrite the first
record whose `id` matches; no match is a no-op. -/
def updateStore (store : List Notification) (id : String)
    (f : Notification → Notification) : List Notification :=
  match store with
  | [] => []
  | n :: rest =>
      if n.id == id then f n :: rest else n :: updateStore rest id f

/-- Mongo `find_one({"id": id})`: the first record whose `id` matches. -/
def findOne (store : List Notification) (id : String) : Option Notification :=
  store.find? (fun n => n.id == id)

/-- Function `publish_notification` (successful broker path): publish
`notification.to_dict()` to the `notifications` work queue. -/
def publish_notification (st : SysState) (n : Notification) : SysState :=
  { st with workQueue := st.workQueue ++ [n.to_dict] }

/-- Function `process_notification`: deserialize the message body (`none` models
an undeserializable payload, whose exception is caught and turns into
`return False` with no other effect).  On success of `send_notification`
persist `{"status": "sent", "last_error": None}`.  Otherwise increment
`retry_count`; at `retry_count >= max_retries` set the status to
`failed_permanently`, persist the whole dict and publish it to the DLQ;
below the bound set `next_retry_time` from the backoff formula and
persist the whole dict (the status is whatever `send_notification`
left — `"failed"`). -/
def process_notification (env : Env) (st : SysState)
    (msg : Option NotifDict) : SysState × Bool :=
  match msg with
  | none => (st, false)
  | some d =>
      let n0 := Notification.from_dict d
      let (n1, ok) := send_notification env n0
      if ok then
        ({ st with store := (updateStore st.store n1.id
            (fun r => { r with status := "sent", last_error := none })) }, true)
      else
        let n2 := { n1 with retry_count := n1.retry_count + 1 }
        if n2.max_retries ≤ n2.retry_count then
          let n3 := { n2 with status := "failed_permanently" }
          ({ store := updateStore st.store n3.id (fun _ => n3)
             workQueue := st.workQueue
             dlq := st.dlq ++ [n3.to_dict] }, true)
        else
          let n3 := { n2 with
            next_retry_time :=
              (some (calculate_next_retry_time env.now n2.retry_count)) }
          ({ st with
             store := updateStore st.store n3.id (fun _ => n3) }, true)

/-- Broker acknowledgement decision of the consumer callback in
`start_consumer`. -/
inductive AckAction where
  | ack : AckAction
  | nackNoRequeue : AckAction
deriving Repr, DecidableEq

/-- The consumer callback: run `process_notification` on the body; ack
on `True`, `basic_nack(..., requeue=False)` on `False`. -/
def consumer_callback (env : Env) (st : SysState)
    (msg : Option NotifDict) : SysState × AckAction :=
  let (st2, ok) := process_notification env st msg
  (st2, if ok then .ack else .nackNoRequeue)

/-- The Mongo query filter of the scheduler:
`{"status": "retry_scheduled", "next_retry_time": {"$lte": now}}`. -/
def isDue (now : Nat) (n : Notification) : Bool :=
  n.status == "retry_scheduled" &&
    match n.next_retry_time with
    | some t => t ≤ now
    | none => false

/-- The scheduler's per-record claim write:
`update_one({"id": id}, {"$set": {"status": "retrying"}})` — keyed only
by `id`, with no condition on the current status. -/
def scheduler_claim (store : List Notification) (id : String) :
    List Notification :=
  updateStore store id (fun r => { r with status := "retrying" })

/-- Function `process_scheduled_retries`: for every stored record matching the
due-retry filter, claim it and publish the snapshot read by the cursor
(the pre-claim document) to the work queue. -/
def process_scheduled_retries (now : Nat) (st : SysState) : SysState :=
  (st.store.filter (isDue now)).foldl
    (fun s n =>
      { store := scheduler_claim s.store n.id
        workQueue := s.workQueue ++ [n.to_dict]
        dlq := s.dlq })
    st

/-- HTTP outcome of the manual-retry endpoint (publish modelled on the
successful broker path). -/
inductive RetryResult where
  | notFound : RetryResult
  | queued : RetryResult
deriving Repr, DecidableEq

/-- Endpoint `retry_notification`: look the record up by `id`; missing →
404 with no writes.  Otherwise rebuild it via `from_dict`, set
`retry_count = 0`, `status = "retrying"`, `next_retry_time = None`,
persist the whole dict, and publish it once to the work queue. -/
def retry_notification (st : SysState) (id : String) :
    SysState × RetryResult :=
  match findOne st.store id with
  | none => (st, .notFound)
  | some doc =>
      let n := { Notification.from_dict doc.to_dict with
                   retry_count := 0
                   status := "retrying"
                   next_retry_time := none }
      (publish_notification
        { st with store := updateStore st.store id (fun _ => n) } n,
       .queued)

/-- The `Notification` constructor for a fresh record (id and creation
time passed explicitly in place of `uuid4()`/`utcnow()`): `status`
starts `pending`, counters at zero, `max_retries = MAX_RETRIES`,
`last_error`/`next_retry_time` unset. -/
def mkNotification (id : String) (user_id notification_type message : String)
    (email phone : String) (created_at : Nat) : Notification :=
  { id := id
    user_id := user_id
    notification_type := notification_type
    message := message
    email := email
    phone := phone
    created_at := created_at
    status := "pending"
    last_error := none
    retry_count := 0
    max_retries := MAX_RETRIES
    next_retry_time := none }

/-- Environment in which both providers raise (transient outage) at
UTC time 1000. -/
def envDown : Env :=
  { now := 1000
    emailDelivery := .raises "smtp down"
    smsDelivery := .raises "twilio down" }

/-- Environment in which both providers succeed, at UTC time 1000. -/
def envUp : Env :=
  { now := 1000, emailDelivery := .ok, smsDelivery := .ok }

/-- A fresh pending email notification with a well-formed address. -/
def c1_record : Notification :=
  mkNotification "n1" "u1" "email" "hello" "user@example.com" "" 500

/-- Store holding only `c1_record`, queues empty. -/
def c1_state : SysState := { store := [c1_record], workQueue := [], dlq := [] }

/-- A record sitting in `retry_scheduled` with a due `next_retry_time`. -/
def c2_record : Notification :=
  { mkNotification "n2" "u2" "email" "hello" "user@example.com" "" 500 with
      status := "retry_scheduled", retry_count := 1, next_retry_time := some 900 }

/-- Store holding only `c2_record`, queues empty. -/
def c2_state : SysState := { store := [c2_record], workQueue := [], dlq := [] }

/-- A fresh pending SMS notification whose phone number `12345` fails
the `^\+\d{10,15}$` check. -/
def c3_record : Notification :=
  mkNotification "n3" "u3" "sms" "hello" "" "12345" 500

/-- Store holding only `c3_record`, queues empty. -/
def c3_state : SysState := { store := [c3_record], workQueue := [], dlq := [] }

/-- A record already delivered (terminal status `sent`). -/
def c4_record : Notification :=
  { mkNotification "n4" "u4" "email" "hello" "user@example.com" "" 500 with
      status := "sent" }

/-- A fresh pending email notification whose provider will always fail. -/
def c6_record : Notification :=
  mkNotification "n6" "u6" "email" "hello" "user@example.com" "" 500

/-- Store holding only `c6_record`, queues empty. -/
def c6_state : SysState := { store := [c6_record], workQueue := [], dlq := [] }

/-- An empty system state for the malformed-message scenario. -/
def c7_state : SysState := { store := [], workQueue := [], dlq := [] }

/-- A record that exhausted its retries (`failed_permanently`). -/
def c8_record : Notification :=
  { mkNotification "n8" "u8" "email" "hello" "user@example.com" "" 500 with
      status := "failed_permanently", retry_count := 5,
      last_error := some "smtp down" }

/-- Store holding only `c8_record`, queues empty. -/
def c8_state : SysState := { store := [c8_record], workQueue := [], dlq := [] }

/-- An `in_app` notification whose contact fields are both garbage. -/
def c9_record : Notification :=
  mkNotification "n9" "u9" "in_app" "hello" "not-an-email" "not-a-phone" 500

/-- Store holding only `c9_record`, queues empty. -/
def c9_state : SysState := { store := [c9_record], workQueue := [], dlq := [] }

/-- Helper: `from_dict` undoes `to_dict` (every `data.get` hits a
present key, and the `Option`-valued fields pass through unchanged). -/
theorem from_to_dict_id (n : Notification) :
    Notification.from_dict n.to_dict = n := by
  cases n
  rfl

/-- Claim C1: the spec says that on a transient delivery failure with
the incremented `retry_count` still below `max_retries`, the worker
leaves the persisted record with status `retry_scheduled` and
`next_retry_time` set to the backoff time.  The code violates this:
`send_notification`'s exception handler sets status `"failed"`, and the
retry branch of `process_notification` persists that status unchanged —
no code path ever writes `retry_scheduled`, even though
`next_retry_time` is set as claimed (1000 + 60 here). -/
theorem c1_transient_failure_persists_failed_status :
    (process_notification envDown c1_state (some c1_record.to_dict)).1.store.map
        (fun n => (n.status, n.retry_count, n.next_retry_time)) =
      [("failed", 1, some 1060)] ∧
    ∀ n ∈ (process_notification envDown c1_state (some c1_record.to_dict)).1.store,
      n.status ≠ "retry_scheduled" := by
  decide

/-- Claim C2: the spec's invariant `next_retry_time` is non-null iff
`status = retry_scheduled` fails on the code: the scheduler's claim
write sets status `retrying` without clearing `next_retry_time`, so the
claimed record has a non-null `next_retry_time` under status
`retrying`. -/
theorem c2_next_retry_time_invariant_violated :
    (process_scheduled_retries 1000 c2_state).store.map
        (fun n => (n.status, n.next_retry_time)) =
      [("retrying", some 900)] ∧
    ∃ n ∈ (process_scheduled_retries 1000 c2_state).store,
      n.next_retry_time ≠ none ∧ n.status ≠ "retry_scheduled" := by
  decide

/-- Claim C3: the spec says a syntactically invalid contact is
dead-lettered on the first attempt with status `failed_permanently` and
`retry_count` still 0.  The code instead funnels the `ValueError` through
the generic failure path: the record ends with status `"failed"`,
`retry_count` 1, a scheduled `next_retry_time`, and nothing on the
dead-letter queue. -/
theorem c3_invalid_phone_consumes_retry_budget :
    validate_phone c3_record.phone = false ∧
    (process_notification envUp c3_state (some c3_record.to_dict)).1.store.map
        (fun n => (n.status, n.retry_count, n.next_retry_time, n.last_error)) =
      [("failed", 1, some 1060, some "Invalid phone")] ∧
    (process_notification envUp c3_state (some c3_record.to_dict)).1.dlq = [] := by
  decide

/-- Claim C4: the spec requires the scheduler's claim to be a
compare-and-swap conditioned on the status still being
`retry_scheduled`, a no-op otherwise.  The code's claim is
`update_one({"id": ...}, {"$set": {"status": "retrying"}})`, keyed only
by id: applied to a record whose status is already terminal (`sent`),
it still overwrites the status with `retrying` instead of leaving it
alone. -/
theorem c4_scheduler_claim_is_blind_write :
    c4_record.status = "sent" ∧
    scheduler_claim [c4_record] "n4" = [{ c4_record with status := "retrying" }] := by
  decide

/-- Claim C5 (counterexample): the claim asserts the delay is exactly
3600 s for every `retry_count ≥ 5`, but the code's
`min(30 * 2 ** retry_count, 3600)` gives 960 s at `retry_count = 5`. -/
theorem c5_cap_at_count_five_is_false :
    calculate_next_retry_time 0 5 = 960 ∧
    calculate_next_retry_time 0 5 ≠ 0 + 3600 := by
  decide

/-- Claim C5 (amended): for every `retry_count`, the computed retry time
is `now + min(30 * 2 ^ retry_count, 3600)` — 30, 60, 120, 240, 480,
960, 1920 s for counts 0–6, and exactly 3600 s for every count ≥ 7. -/
theorem c5_backoff_formula (now rc : Nat) :
    calculate_next_retry_time now rc = now + min (30 * 2 ^ rc) 3600 ∧
    calculate_next_retry_time now 0 = now + 30 ∧
    calculate_next_retry_time now 1 = now + 60 ∧
    calculate_next_retry_time now 2 = now + 120 ∧
    calculate_next_retry_time now 3 = now + 240 ∧
    calculate_next_retry_time now 4 = now + 480 ∧
    calculate_next_retry_time now 5 = now + 960 ∧
    calculate_next_retry_time now 6 = now + 1920 ∧
    (7 ≤ rc → calculate_next_retry_time now rc = now + 3600) := by
  refine ⟨rfl, by norm_num [calculate_next_retry_time],
    by norm_num [calculate_next_retry_time],
    by norm_num [calculate_next_retry_time],
    by norm_num [calculate_next_retry_time],
    by norm_num [calculate_next_retry_time],
    by norm_num [calculate_next_retry_time],
    by norm_num [calculate_next_retry_time],
    fun h => ?_⟩
  have h2 : (2 : Nat) ^ 7 ≤ 2 ^ rc := Nat.pow_le_pow_right (by norm_num) h
  have h3 : (3600 : Nat) ≤ 30 * 2 ^ rc := by
    calc (3600 : Nat) ≤ 30 * 2 ^ 7 := by norm_num
    _ ≤ 30 * 2 ^ rc := Nat.mul_le_mul_left 30 h2
  unfold calculate_next_retry_time
  rw [min_eq_right h3]

/-- Witness for the amended C5 at `now = 0`, `retry_count = 7`. -/
theorem c5_backoff_formula_witness :
    calculate_next_retry_time 0 7 = 0 + min (30 * 2 ^ 7) 3600 ∧
    calculate_next_retry_time 0 7 = 0 + 3600 :=
  ⟨(c5_backoff_formula 0 7).1,
   (c5_backoff_formula 0 7).2.2.2.2.2.2.2.2 (by norm_num)⟩

/-- Claim C6: the spec says a record failing every attempt cycles
through `retry_scheduled`/`retrying` exactly `max_retries` times and
then reaches `failed_permanently` with one dead-letter message.  In the
code the very first transient failure parks the record at status
`"failed"`, which the scheduler's `{"status": "retry_scheduled"}` query
never matches: a later scheduler pass changes nothing, the record never
reaches `failed_permanently`, and the dead-letter queue stays empty. -/
theorem c6_always_failing_record_is_stranded :
    (process_notification envDown c6_state (some c6_record.to_dict)).1.store.map
        (fun n => (n.status, n.retry_count)) = [("failed", 1)] ∧
    (process_notification envDown c6_state (some c6_record.to_dict)).1.dlq = [] ∧
    process_scheduled_retries 1000000000
        (process_notification envDown c6_state (some c6_record.to_dict)).1 =
      (process_notification envDown c6_state (some c6_record.to_dict)).1 := by
  decide

/-- Claim C7: the spec requires an undeserializable queue payload to be
routed to the dead-letter queue rather than only nacked.  The code's
consumer callback nacks without requeue and publishes nothing: the
state (dead-letter queue included) is unchanged and the message is
dropped. -/
theorem c7_malformed_message_is_dropped :
    consumer_callback envUp c7_state none = (c7_state, AckAction.nackNoRequeue) ∧
    (consumer_callback envUp c7_state none).1.dlq = [] := by
  decide

/-- Claim C8: manual retry on an id with no record returns NotFound and
changes no state; on an id with a record it resets `retry_count` to 0,
clears `next_retry_time`, sets status `retrying`, rewrites exactly that
record in the store, and appends exactly one snapshot of it to the work
queue, leaving the dead-letter queue alone. -/
theorem c8_manual_retry_spec (st : SysState) (id : String) :
    (findOne st.store id = none →
      retry_notification st id = (st, RetryResult.notFound)) ∧
    ∀ doc, findOne st.store id = some doc →
      retry_notification st id =
        ({ store := (updateStore st.store id (fun _ =>
              { doc with
                  retry_count := 0
                  status := "retrying"
                  next_retry_time := none }))
           workQueue := (st.workQueue ++
              [({ doc with
                    retry_count := 0
                    status := "retrying"
                    next_retry_time := none } : Notification).to_dict])
           dlq := st.dlq }, RetryResult.queued) := by
  constructor
  · intro h
    simp [retry_notification, h]
  · intro doc h
    simp [retry_notification, h, publish_notification, from_to_dict_id]

/-- Witness for C8: both branches at a concrete store — a missing id is
NotFound with the state untouched, and retrying the stored
`failed_permanently` record resets it and publishes it once. -/
theorem c8_manual_retry_spec_witness :
    retry_notification c8_state "missing" = (c8_state, RetryResult.notFound) ∧
    retry_notification c8_state "n8" =
      ({ store := (updateStore c8_state.store "n8" (fun _ =>
            { c8_record with
                retry_count := 0
                status := "retrying"
                next_retry_time := none }))
         workQueue := (c8_state.workQueue ++
            [({ c8_record with
                  retry_count := 0
                  status := "retrying"
                  next_retry_time := none } : Notification).to_dict])
         dlq := c8_state.dlq }, RetryResult.queued) :=
  ⟨(c8_manual_retry_spec c8_state "missing").1 (by decide),
   (c8_manual_retry_spec c8_state "n8").2 c8_record (by decide)⟩

/-- Claim C9: for an `in_app` notification, `send_notification` takes
neither the email nor the sms branch — no contact validation and no
provider call — so it unconditionally succeeds with status `sent`, and
`process_notification` persists status `sent` with `last_error`
cleared, whatever the contact fields hold. -/
theorem c9_in_app_unconditional_success (env : Env) (st : SysState)
    (n : Notification) (h : n.notification_type = "in_app") :
    send_notification env n = ({ n with status := "sent" }, true) ∧
    process_notification env st (some n.to_dict) =
      ({ st with store := (updateStore st.store n.id
          (fun r => { r with status := "sent", last_error := none })) }, true) := by
  have hsend : send_notification env n = ({ n with status := "sent" }, true) := by
    simp [send_notification, h]
  refine ⟨hsend, ?_⟩
  simp [process_notification, from_to_dict_id, hsend]

/-- Witness for C9 at a concrete `in_app` record with garbage contact
fields, in an environment where both providers would raise if called. -/
theorem c9_in_app_unconditional_success_witness :
    send_notification envDown c9_record = ({ c9_record with status := "sent" }, true) ∧
    process_notification envDown c9_state (some c9_record.to_dict) =
      ({ c9_state with store := (updateStore c9_state.store c9_record.id
          (fun r => { r with status := "sent", last_error := none })) }, true) :=
  c9_in_app_unconditional_success envDown c9_state c9_record rfl

/-- Claim C10: `Notification.from_dict` is a left inverse of
`Notification.to_dict` — the round trip reproduces every field of the
record. -/
theorem c10_from_dict_left_inverse_of_to_dict (n : Notification) :
    Notification.from_dict n.to_dict = n :=
  from_to_dict_id n

end NotificationService
